import Mathlib

/-!
Verification of the `sidoc` repository's procedure module
(`src/procedure/foundations.py`) and documentation generator
(`src/gendoc.py`), as a shallow embedding in Lean 4.

External effects are made explicit:
* the `pycsh` interface-statistics retrieval becomes a parameter
  `fetch : String → Int → Option Ifstat`, where `none` models the
  retrieval raising an exception;
* the power-supply parameter reads become `Option ℚ` parameters
  (`none` models a read failure);
* logger / webhook emissions of `can_checker` are recorded as a list
  of `Event` values;
* the shell commands issued by `gendoc.py` are recorded as a list of
  `SysCall` values.

Counters are natural numbers; the drop-percentage computation uses
exact rational division in place of Python float division.
-/

/-- The fields of a `pycsh.Ifstat` statistics snapshot. -/
structure Ifstat where
  tx : ℕ
  rx : ℕ
  tx_error : ℕ
  rx_error : ℕ
  drop : ℕ
  autherr : ℕ
  txbytes : ℕ
  rxbytes : ℕ
deriving DecidableEq, Repr

/-- `Procedure.check_can_interface`: retrieve the stats for
`interface_name` on `node` (an exception during retrieval is modelled by
`fetch` returning `none`, and is converted to the absent result `none`),
then classify:
1. `tx + drop == 0` → absent;
2. drop percentage `(drop / (tx + drop)) * 100 ≥ 20` → return the stats;
3. `tx_error > 0 or rx_error > 0` → absent;
4. `autherr > 0` → absent;
5. otherwise → return the stats. -/
def check_can_interface (fetch : String → Int → Option Ifstat)
    (interface_name : String) (node : Int) : Option Ifstat :=
  match fetch interface_name node with
  | none => none
  | some stats =>
    let total_packets := stats.tx + stats.drop
    if total_packets = 0 then
      none
    else
      let drop_percentage : ℚ := ((stats.drop : ℚ) / (total_packets : ℚ)) * 100
      if drop_percentage ≥ 20 then
        some stats
      else if stats.tx_error > 0 ∨ stats.rx_error > 0 then
        none
      else if stats.autherr > 0 then
        none
      else
        some stats

/-- C1: whenever retrieval of the stats succeeds, `tx + drop > 0` and the
drop rate `drop / (tx + drop)` is at least 20 %, `check_can_interface`
returns the stats object, with no condition at all on `tx_error`,
`rx_error` or `autherr`: the drop-rate branch precedes the error-counter
branches. -/
theorem check_can_interface_drop_priority
    (fetch : String → Int → Option Ifstat) (interface_name : String)
    (node : Int) (s : Ifstat)
    (hf : fetch interface_name node = some s)
    (hpos : 0 < s.tx + s.drop)
    (hrate : (1 : ℚ) / 5 ≤ (s.drop : ℚ) / ((s.tx : ℚ) + (s.drop : ℚ))) :
    check_can_interface fetch interface_name node = some s := by
  have hne : s.tx + s.drop ≠ 0 := Nat.pos_iff_ne_zero.mp hpos
  have h20 : (20 : ℚ) ≤ ((s.drop : ℚ) / ((s.tx + s.drop : ℕ) : ℚ)) * 100 := by
    push_cast
    nlinarith [hrate]
  simp only [check_can_interface, hf]
  rw [if_neg hne, if_pos (by simpa using h20)]

/-- Witness for C1: the spec's own example, stats
`{tx:100, drop:30, tx_error:0, rx_error:0, autherr:0}` (drop rate
30/130 ≈ 23.08 % ≥ 20 %) is returned, not absent. -/
theorem check_can_interface_drop_priority_witness :
    check_can_interface (fun _ _ => some ⟨100, 0, 0, 0, 30, 0, 0, 0⟩)
      "CAN0" 4 = some ⟨100, 0, 0, 0, 30, 0, 0, 0⟩ :=
  check_can_interface_drop_priority _ "CAN0" 4 _ rfl (by norm_num)
    (by norm_num)

/-- C2: whenever retrieval succeeds but `tx + drop = 0`, the check
returns the absent result, whatever the values of the other six
fields. -/
theorem check_can_interface_no_traffic_absent
    (fetch : String → Int → Option Ifstat) (interface_name : String)
    (node : Int) (s : Ifstat)
    (hf : fetch interface_name node = some s)
    (h : s.tx + s.drop = 0) :
    check_can_interface fetch interface_name node = none := by
  simp [check_can_interface, hf, h]

/-- Witness for C2: a snapshot with `tx = drop = 0` but every other
field nonzero still yields the absent result. -/
theorem check_can_interface_no_traffic_absent_witness :
    check_can_interface (fun _ _ => some ⟨0, 7, 3, 4, 0, 5, 900, 800⟩)
      "CAN1" 4 = none :=
  check_can_interface_no_traffic_absent _ "CAN1" 4 _ rfl rfl

/-- C3: with traffic present and the drop rate under 20 %, the check is
absent exactly when one of `tx_error`, `rx_error`, `autherr` is
positive; when all three are zero it returns the stats (healthy). -/
theorem check_can_interface_error_branches
    (fetch : String → Int → Option Ifstat) (interface_name : String)
    (node : Int) (s : Ifstat)
    (hf : fetch interface_name node = some s)
    (hpos : 0 < s.tx + s.drop)
    (hrate : (s.drop : ℚ) / ((s.tx : ℚ) + (s.drop : ℚ)) < (1 : ℚ) / 5) :
    (check_can_interface fetch interface_name node = none ↔
      0 < s.tx_error ∨ 0 < s.rx_error ∨ 0 < s.autherr) ∧
    (s.tx_error = 0 → s.rx_error = 0 → s.autherr = 0 →
      check_can_interface fetch interface_name node = some s) := by
  have hne : s.tx + s.drop ≠ 0 := Nat.pos_iff_ne_zero.mp hpos
  have htot : (0 : ℚ) < ((s.tx + s.drop : ℕ) : ℚ) := by
    exact_mod_cast hpos
  have h20 : ¬ (20 : ℚ) ≤ ((s.drop : ℚ) / ((s.tx + s.drop : ℕ) : ℚ)) * 100 := by
    push_cast
    push_cast at htot
    intro hle
    nlinarith [hrate]
  simp only [check_can_interface, hf]
  rw [if_neg hne, if_neg (by simpa using h20)]
  constructor
  · split_ifs with h1 h2 <;> simp <;> omega
  · intro h1 h2 h3
    rw [if_neg (by omega), if_neg (by omega)]

/-- Witness for C3: with `tx = 50, drop = 2` (rate 2/52 < 20 %) and
`rx_error = 1` the check is absent; with the same traffic and all error
counters zero it returns the stats. -/
theorem check_can_interface_error_branches_witness :
    (check_can_interface (fun _ _ => some ⟨50, 9, 0, 1, 2, 0, 0, 0⟩)
        "CAN0" 2 = none ↔
      0 < (0 : ℕ) ∨ 0 < (1 : ℕ) ∨ 0 < (0 : ℕ)) ∧
    ((0 : ℕ) = 0 → (1 : ℕ) = 0 → (0 : ℕ) = 0 →
      check_can_interface (fun _ _ => some ⟨50, 9, 0, 1, 2, 0, 0, 0⟩)
        "CAN0" 2 = some ⟨50, 9, 0, 1, 2, 0, 0, 0⟩) :=
  check_can_interface_error_branches _ "CAN0" 2 ⟨50, 9, 0, 1, 2, 0, 0, 0⟩
    rfl (by norm_num) (by norm_num)

/-- The five-way classification outcome of `check_can_interface`, in the
source's branch order (with a sixth case for a retrieval failure). -/
inductive Classification where
  | retrievalFailed
  | insufficientData
  | degraded
  | txRxErrors
  | authErrors
  | healthy
deriving DecidableEq, Repr

/-- Which branch of `check_can_interface` is taken, with the branch
conditions transcribed from the source in the same order. -/
def check_can_interface_branch (fetch : String → Int → Option Ifstat)
    (interface_name : String) (node : Int) : Classification :=
  match fetch interface_name node with
  | none => .retrievalFailed
  | some stats =>
    let total_packets := stats.tx + stats.drop
    if total_packets = 0 then
      .insufficientData
    else
      let drop_percentage : ℚ := ((stats.drop : ℚ) / (total_packets : ℚ)) * 100
      if drop_percentage ≥ 20 then
        .degraded
      else if stats.tx_error > 0 ∨ stats.rx_error > 0 then
        .txRxErrors
      else if stats.autherr > 0 then
        .authErrors
      else
        .healthy

/-- C10: the branch taken, and whether the result is absent, depend only
on `tx`, `drop`, `tx_error`, `rx_error` and `autherr`: two snapshots
agreeing on those five fields classify identically, whatever their `rx`,
`txbytes` and `rxbytes`. -/
theorem check_can_interface_classification_depends_on_five_fields
    (fetch₁ fetch₂ : String → Int → Option Ifstat)
    (interface_name : String) (node : Int) (s t : Ifstat)
    (hf₁ : fetch₁ interface_name node = some s)
    (hf₂ : fetch₂ interface_name node = some t)
    (htx : s.tx = t.tx) (hdrop : s.drop = t.drop)
    (htxe : s.tx_error = t.tx_error) (hrxe : s.rx_error = t.rx_error)
    (hauth : s.autherr = t.autherr) :
    check_can_interface_branch fetch₁ interface_name node =
      check_can_interface_branch fetch₂ interface_name node ∧
    (check_can_interface fetch₁ interface_name node).isSome =
      (check_can_interface fetch₂ interface_name node).isSome := by
  simp [check_can_interface_branch, check_can_interface, hf₁, hf₂,
    htx, hdrop, htxe, hrxe, hauth]
  split_ifs <;> simp

/-- Witness for C10: two snapshots sharing
`tx = 10, drop = 1, tx_error = 0, rx_error = 0, autherr = 0` but with
different `rx`, `txbytes` and `rxbytes` classify identically (healthy)
and are equally non-absent. -/
theorem check_can_interface_classification_depends_on_five_fields_witness :
    check_can_interface_branch (fun _ _ => some ⟨10, 3, 0, 0, 1, 0, 640, 192⟩)
        "CAN0" 4 =
      check_can_interface_branch (fun _ _ => some ⟨10, 999, 0, 0, 1, 0, 0, 7⟩)
        "CAN0" 4 ∧
    (check_can_interface (fun _ _ => some ⟨10, 3, 0, 0, 1, 0, 640, 192⟩)
        "CAN0" 4).isSome =
      (check_can_interface (fun _ _ => some ⟨10, 999, 0, 0, 1, 0, 0, 7⟩)
        "CAN0" 4).isSome :=
  check_can_interface_classification_depends_on_five_fields _ _ "CAN0" 4 _ _
    rfl rfl rfl rfl rfl rfl rfl

/-- The fields of the externally supplied configuration object used by
`can_checker`: the CAN node identifier and the interface-name list. -/
structure Args where
  can_node : Int
  interfaces : List String

/-- A logger / webhook emission of `can_checker`, one constructor per
message site (the per-interface statistics messages of
`check_can_interface` are summarised by `ifaceReport`). -/
inductive Event where
  | startCheck
  | ifaceReport (interface_name : String) (node : Int) (result : Option Ifstat)
  | crossZeroFallback (node : Int) (interface_name : String)
  | crossCompareReport (node : Int)
      (can0_rx can1_rx can0_tx can1_tx rx_diff tx_diff : ℕ)
  | crossSkipped (node : Int)
  | allHealthy
  | someIssues
deriving DecidableEq, Repr

/-- `can0_rx` / `can1_rx` in the cross-compare: the recorded receive
count, or 0 when the stored result is `None`. -/
def stats_rx : Option Ifstat → ℕ
  | none => 0
  | some s => s.rx

/-- `can0_tx` / `can1_tx` in the cross-compare: the recorded transmit
count, or 0 when the stored result is `None`. -/
def stats_tx : Option Ifstat → ℕ
  | none => 0
  | some s => s.tx

/-- The cross-compare section of `can_checker` for one node's recorded
results: when both keys `"CAN0"` and `"CAN1"` are in the per-node map it
reports `|can0_rx - can1_rx|` and `|can0_tx - can1_tx|` (warning first
when a `None` entry was replaced by zeros); otherwise it reports that no
cross-comparison happens. -/
def crossEvents (node : Int) (ifstats : List (String × Option Ifstat)) :
    List Event :=
  match ifstats.lookup "CAN0", ifstats.lookup "CAN1" with
  | some can0_stats, some can1_stats =>
    let can0_rx := stats_rx can0_stats
    let can0_tx := stats_tx can0_stats
    let can1_rx := stats_rx can1_stats
    let can1_tx := stats_tx can1_stats
    let rx_diff := ((can0_rx : ℤ) - (can1_rx : ℤ)).natAbs
    let tx_diff := ((can0_tx : ℤ) - (can1_tx : ℤ)).natAbs
    (if can0_stats.isNone then [Event.crossZeroFallback node "CAN0"] else []) ++
    (if can1_stats.isNone then [Event.crossZeroFallback node "CAN1"] else []) ++
    [Event.crossCompareReport node can0_rx can1_rx can0_tx can1_tx
      rx_diff tx_diff]
  | _, _ => [Event.crossSkipped node]

/-- What one run of `can_checker` produces: the per-node map of recorded
results, the `all_ok` flag, and the emitted messages in order. -/
structure CheckerRun where
  stats_map : List (Int × List (String × Option Ifstat))
  all_ok : Bool
  events : List Event

/-- `Procedure.can_checker`: for the single configured node run
`check_can_interface` on every configured interface, recording `None`
for a failed check and clearing `all_ok`; then per node do the
`"CAN0"`/`"CAN1"` cross-compare (or report why it is skipped); finally
emit the all-healthy message when `all_ok` survived, otherwise the
one-or-more-issues message. -/
def can_checker (fetch : String → Int → Option Ifstat) (args : Args) :
    CheckerRun :=
  let nodes : List Int := [args.can_node]
  let stats_map := nodes.map fun node =>
    (node, args.interfaces.map fun interface =>
      (interface, check_can_interface fetch interface node))
  let all_ok := stats_map.all fun p => p.2.all fun q => q.2.isSome
  let events :=
    [Event.startCheck] ++
    (stats_map.map fun p =>
      p.2.map fun q => Event.ifaceReport q.1 p.1 q.2).flatten ++
    (stats_map.map fun p => crossEvents p.1 p.2).flatten ++
    [if all_ok then Event.allHealthy else Event.someIssues]
  ⟨stats_map, all_ok, events⟩

lemma allHealthy_not_mem_crossEvents (node : Int)
    (ifstats : List (String × Option Ifstat)) :
    Event.allHealthy ∉ crossEvents node ifstats := by
  unfold crossEvents
  split <;> simp

lemma someIssues_not_mem_crossEvents (node : Int)
    (ifstats : List (String × Option Ifstat)) :
    Event.someIssues ∉ crossEvents node ifstats := by
  unfold crossEvents
  split <;> simp

lemma lookup_map_self {β : Type} (l : List String) (f : String → β)
    (k : String) :
    (l.map fun i => (i, f i)).lookup k =
      if k ∈ l then some (f k) else none := by
  induction l with
  | nil => simp [List.lookup]
  | cons a l ih =>
    by_cases hk : k = a
    · subst hk
      simp [List.lookup]
    · have hba : (k == a) = false := beq_eq_false_iff_ne.mpr hk
      simp only [List.map_cons, List.lookup, hba, List.mem_cons]
      rw [ih]
      by_cases hm : k ∈ l <;> simp [hk, hm]

lemma can_checker_all_ok_iff (fetch : String → Int → Option Ifstat)
    (args : Args) :
    (can_checker fetch args).all_ok = true ↔
      ∀ interface ∈ args.interfaces,
        (check_can_interface fetch interface args.can_node).isSome := by
  simp [can_checker, List.all_eq_true]

lemma can_checker_events_eq (fetch : String → Int → Option Ifstat)
    (args : Args) :
    (can_checker fetch args).events =
      [Event.startCheck] ++
      (args.interfaces.map fun interface =>
        Event.ifaceReport interface args.can_node
          (check_can_interface fetch interface args.can_node)) ++
      crossEvents args.can_node (args.interfaces.map fun interface =>
        (interface, check_can_interface fetch interface args.can_node)) ++
      [if (can_checker fetch args).all_ok then Event.allHealthy
       else Event.someIssues] := by
  simp [can_checker]

/-- C4: the run emits the all-healthy message exactly when every
per-interface check on the configured node produced a non-absent result,
and the one-or-more-issues message exactly otherwise; a degraded but
non-absent result therefore still counts towards all-healthy. -/
theorem can_checker_all_healthy_iff (fetch : String → Int → Option Ifstat)
    (args : Args) :
    (Event.allHealthy ∈ (can_checker fetch args).events ↔
      ∀ interface ∈ args.interfaces,
        (check_can_interface fetch interface args.can_node).isSome) ∧
    (Event.someIssues ∈ (can_checker fetch args).events ↔
      ¬ ∀ interface ∈ args.interfaces,
        (check_can_interface fetch interface args.can_node).isSome) := by
  have hev := can_checker_events_eq fetch args
  have hok := can_checker_all_ok_iff fetch args
  cases hB : (can_checker fetch args).all_ok
  · rw [hB] at hev hok
    have hnot : ¬ ∀ interface ∈ args.interfaces,
        (check_can_interface fetch interface args.can_node).isSome := by
      intro h
      simpa using hok.mpr h
    rw [hev]
    simp [allHealthy_not_mem_crossEvents, someIssues_not_mem_crossEvents, hnot]
  · rw [hB] at hev hok
    have hyes := hok.mp rfl
    rw [hev]
    simp [allHealthy_not_mem_crossEvents, someIssues_not_mem_crossEvents, hyes]
    refine ⟨hyes, fun x hx h => ?_⟩
    simpa [h] using hyes x hx

/-- C5: in the cross-compare an absent recorded result is substituted by
zero for both counters, so against a present side with counts `rx`/`tx`
the reported differences are exactly `rx` and `tx`. -/
theorem can_checker_cross_zero_substitution
    (fetch : String → Int → Option Ifstat) (args : Args) (s : Ifstat)
    (hi : args.interfaces = ["CAN0", "CAN1"])
    (h0 : check_can_interface fetch "CAN0" args.can_node = none)
    (h1 : check_can_interface fetch "CAN1" args.can_node = some s) :
    Event.crossCompareReport args.can_node 0 s.rx 0 s.tx s.rx s.tx ∈
      (can_checker fetch args).events := by
  have hev := can_checker_events_eq fetch args
  cases hB : (can_checker fetch args).all_ok <;> rw [hB] at hev <;> rw [hev] <;>
    simp [hi, crossEvents, List.lookup, h0, h1, stats_rx, stats_tx,
      zero_sub, Int.natAbs_neg]

/-- Witness for C5: with CAN0's check failing and CAN1 retrieved with
`rx = 10, tx = 5`, the cross-compare reports `rx_diff = 10` and
`tx_diff = 5`. -/
theorem can_checker_cross_zero_substitution_witness :
    Event.crossCompareReport 3 0 10 0 5 10 5 ∈
      (can_checker
        (fun interface_name _ =>
          if interface_name == "CAN1" then some ⟨5, 10, 0, 0, 0, 0, 0, 0⟩
          else none)
        ⟨3, ["CAN0", "CAN1"]⟩).events :=
  can_checker_cross_zero_substitution _ ⟨3, ["CAN0", "CAN1"]⟩
    ⟨5, 10, 0, 0, 0, 0, 0, 0⟩ rfl (by simp [check_can_interface])
    (by simp [check_can_interface])

/-- C6: the run contains a cross-compare report for the configured node
exactly when both exact names `"CAN0"` and `"CAN1"` are among the
configured interfaces, and contains the explanatory skip message exactly
otherwise. -/
theorem can_checker_cross_compare_iff
    (fetch : String → Int → Option Ifstat) (args : Args) :
    ((∃ a b c d e f, Event.crossCompareReport args.can_node a b c d e f ∈
        (can_checker fetch args).events) ↔
      ("CAN0" ∈ args.interfaces ∧ "CAN1" ∈ args.interfaces)) ∧
    (Event.crossSkipped args.can_node ∈ (can_checker fetch args).events ↔
      ¬ ("CAN0" ∈ args.interfaces ∧ "CAN1" ∈ args.interfaces)) := by
  have hev := can_checker_events_eq fetch args
  have hc0 := lookup_map_self args.interfaces
    (fun interface => check_can_interface fetch interface args.can_node) "CAN0"
  have hc1 := lookup_map_self args.interfaces
    (fun interface => check_can_interface fetch interface args.can_node) "CAN1"
  cases hB : (can_checker fetch args).all_ok <;> rw [hB] at hev <;> rw [hev] <;>
  · unfold crossEvents
    rw [hc0, hc1]
    by_cases h0 : "CAN0" ∈ args.interfaces <;>
      by_cases h1 : "CAN1" ∈ args.interfaces <;>
      simp [h0, h1]

/-- C7: a retrieval failure (the modelled exception) makes the
per-interface check absent rather than propagating, and every run of
`can_checker` still reaches its final summary message. -/
theorem check_can_interface_exception_absent
    (fetch : String → Int → Option Ifstat) (args : Args)
    (interface_name : String) (node : Int)
    (h : fetch interface_name node = none) :
    check_can_interface fetch interface_name node = none ∧
    (Event.allHealthy ∈ (can_checker fetch args).events ∨
      Event.someIssues ∈ (can_checker fetch args).events) := by
  refine ⟨by simp [check_can_interface, h], ?_⟩
  have hev := can_checker_events_eq fetch args
  cases hB : (can_checker fetch args).all_ok <;> rw [hB] at hev <;> rw [hev]
  · right
    simp
  · left
    simp

/-- Witness for C7: with every retrieval failing, the check of `"CAN0"`
on node 7 is absent and the run still emits its summary message. -/
theorem check_can_interface_exception_absent_witness :
    check_can_interface (fun _ _ => none) "CAN0" 7 = none ∧
    (Event.allHealthy ∈ (can_checker (fun _ _ => none) ⟨7, ["CAN0"]⟩).events ∨
      Event.someIssues ∈
        (can_checker (fun _ _ => none) ⟨7, ["CAN0"]⟩).events) :=
  check_can_interface_exception_absent _ ⟨7, ["CAN0"]⟩ "CAN0" 7 rfl

/-- `Procedure.check_power_supply`: read `psu_voltage_out` and then
`psu_current_out` (each read is modelled as an `Option ℚ` value, `none`
standing for a raised exception); an exception anywhere in the block
replaces both readings by 0; return `voltage * current`. -/
def check_power_supply (voltage_read current_read : Option ℚ) : ℚ :=
  match voltage_read with
  | none => 0 * 0
  | some voltage =>
    match current_read with
    | none => 0 * 0
    | some current => voltage * current

/-- C8: `check_power_supply` returns the product of the two readings;
when either read fails both are zeroed, so the returned power is 0 and
the failure never propagates. -/
theorem check_power_supply_product (voltage_read current_read : Option ℚ) :
    (voltage_read = none ∨ current_read = none →
      check_power_supply voltage_read current_read = 0) ∧
    (∀ voltage current, voltage_read = some voltage →
      current_read = some current →
      check_power_supply voltage_read current_read = voltage * current) := by
  cases voltage_read <;> cases current_read <;>
    simp [check_power_supply]

/-- The fixed hostname in `gendoc.main`. -/
def hostname : String := "pdup4"

/-- The pinned fallback libdoc version in `gendoc.main`. -/
def libdoc_version : String := "0.1.16"

/-- One `python3 -m libdoc` invocation of `gendoc.main`, carrying
exactly the f-string parameters of the command: the `--elf` input, the
`-d` document date, the `-t` document type, the `-n` number, the
hostname, the `-o` output path and the rst index input path. -/
structure LibdocCmd where
  elf : String
  dateArg : String
  docType : String
  num : String
  host : String
  outPath : String
  inPath : String
deriving DecidableEq, Repr

/-- A shell command issued by `gendoc.main` through `os.system`: either
the conditional `pip install` of the pinned libdoc version, or a libdoc
invocation. -/
inductive SysCall where
  | pipInstall (version : String)
  | libdoc (cmd : LibdocCmd)
deriving DecidableEq, Repr

/-- The libdoc invocation a `SysCall` carries, if any. -/
def SysCall.libdocCmd : SysCall → Option LibdocCmd
  | .pipInstall _ => none
  | .libdoc c => some c

/-- `gendoc.main`: when the installed-version check fails, first
`pip install` the pinned libdoc version; then invoke libdoc twice,
producing `build-doc/pdup4_MAN.pdf` from `doc/index_man.rst` and
`build-doc/pdup4_SWICD.pdf` from `doc/index_sw.rst`, with the current
date passed as the `-d` argument. -/
def gendoc_main (version_ok : Bool) (docdate : String) : List SysCall :=
  (if version_ok then [] else [SysCall.pipInstall libdoc_version]) ++
  [SysCall.libdoc ⟨"build-0/lib/c21/compile/pdup4-0.elf", docdate, "MAN",
      "001", hostname, "build-doc/" ++ hostname ++ "_MAN.pdf",
      "doc/index_man.rst"⟩,
   SysCall.libdoc ⟨"build-0/lib/c21/compile/pdup4-0.elf", docdate, "SWICD",
      "001", hostname, "build-doc/" ++ hostname ++ "_SWICD.pdf",
      "doc/index_sw.rst"⟩]

/-- Counterexample to C9 as stated: at the concrete date `2025-06-01`
the two libdoc output names are the fixed strings
`build-doc/pdup4_MAN.pdf` and `build-doc/pdup4_SWICD.pdf`, and neither
contains the date: the output names are hostname-stamped, not
date-stamped (the date only becomes the `-d` argument). -/
theorem gendoc_output_names_not_date_stamped :
    ((gendoc_main true "2025-06-01").filterMap SysCall.libdocCmd).map
        LibdocCmd.outPath =
      ["build-doc/pdup4_MAN.pdf", "build-doc/pdup4_SWICD.pdf"] ∧
    ¬ ("2025-06-01".data <:+: "build-doc/pdup4_MAN.pdf".data) ∧
    ¬ ("2025-06-01".data <:+: "build-doc/pdup4_SWICD.pdf".data) :=
  ⟨by decide, by decide, by decide⟩

/-- C9 as amended: `gendoc.main` invokes the documentation tool exactly
twice, producing one MAN and one SWICD PDF from the fixed input paths,
with the date passed as the document-date argument and fixed
hostname-stamped output names. -/
theorem gendoc_main_two_libdoc_calls (version_ok : Bool) (docdate : String) :
    (gendoc_main version_ok docdate).filterMap SysCall.libdocCmd =
      [⟨"build-0/lib/c21/compile/pdup4-0.elf", docdate, "MAN",
         "001", "pdup4", "build-doc/pdup4_MAN.pdf", "doc/index_man.rst"⟩,
       ⟨"build-0/lib/c21/compile/pdup4-0.elf", docdate, "SWICD",
         "001", "pdup4", "build-doc/pdup4_SWICD.pdf",
         "doc/index_sw.rst"⟩] := by
  cases version_ok <;> rfl
